import Mathlib

/-!
Shallow embedding of src/scrapper.py (OliveYoungManualScraper) and proofs of
the specification claims about it.

Markup is modelled abstractly: a product fragment (one li.prdt-unit container)
is a query interface mapping a CSS selector string to the result of
BeautifulSoup select_one, which may also raise (modelled with Except).  A
matched element carries its stripped text (get_text with strip=True) and its
attribute map (Tag.get).  bs4 Tag objects are always truthy (Tag.__bool__
returns True), so a Python or-chain over select_one results picks the first
non-None element, whatever its text; Python or over get results treats both
None and the empty string as falsy.  Both are modelled explicitly below.
-/

/-- One matched markup element: its stripped text and its attributes. -/
structure Element where
  text : String
  attr : String → Option String

/-- A product fragment: select_one over selector strings.  The query may raise
(any exception inside extraction is modelled as an error of the query). -/
structure Container where
  select_one : String → Except String (Option Element)

/-- Python or-chain over two select_one results: a bs4 Tag is always truthy,
so the first non-None element wins; a raised exception propagates. -/
def orElem (a b : Except String (Option Element)) : Except String (Option Element) := do
  match (← a) with
  | some e => pure (some e)
  | none => b

/-- A left-associated or-chain over a list of selectors, as written in the
source: select_one(s1) or select_one(s2) or ... -/
def select_first (c : Container) (selectors : List String) : Except String (Option Element) :=
  selectors.foldl (fun acc s => orElem acc (c.select_one s)) (Except.ok none)

/-- Python truthiness of a string-or-None value: None and the empty string are
falsy. -/
def truthyStr : Option String → Bool
  | none => false
  | some s => s ≠ ""

/-- Python or over two string-or-None values: the first truthy one wins, else
the second value as-is. -/
def orStr (a b : Option String) : Option String :=
  if truthyStr a then a else b

/-- A Python dict with string keys and string-or-None values, in insertion
order. -/
def Dict : Type := List (String × Option String)

instance : DecidableEq Dict :=
  inferInstanceAs (DecidableEq (List (String × Option String)))

instance : Membership (String × Option String) Dict :=
  inferInstanceAs (Membership (String × Option String) (List (String × Option String)))

instance : Append Dict :=
  inferInstanceAs (Append (List (String × Option String)))

/-- Dict assignment d[k] = v: overwrite in place when the key exists,
otherwise append (Python dicts preserve insertion order). -/
def dict_set (d : Dict) (k : String) (v : Option String) : Dict :=
  if (List.any d (fun p => p.1 = k)) then
    List.map (fun p => if p.1 = k then (k, v) else p) d
  else
    List.append d [(k, v)]

/-- Dict lookup d.get(k): None both when the key is absent and when it is
stored as None. -/
def dict_get (d : Dict) (k : String) : Option String :=
  match List.find? (fun p => p.1 = k) d with
  | some p => p.2
  | none => none

/-- Key presence, k in d: distinguishes an absent key from a stored None. -/
def dict_has (d : Dict) (k : String) : Bool :=
  List.any d (fun p => p.1 = k)

/-- The text of an optional element, as used in the source pattern
element.get_text(strip=True) if element else None. -/
def elem_text : Option Element → Option String
  | some e => some e.text
  | none => none

/-- Scraper state set up in init: the fields of self that the pure
extraction logic reads.  The browser handles are external collaborators. -/
structure Scraper where
  base_url : String

/-- The default state: base_url as assigned in init. -/
def scraper_default : Scraper := { base_url := "https://global.oliveyoung.com" }

/-- Python str.startswith, modelled on the character sequence. -/
def py_startswith (s p : String) : Bool :=
  List.isPrefixOf p.data s.data

/-- Python str.lower, modelled on the character sequence (the inputs compared
by the code are plain ASCII). -/
def py_lower (s : String) : String :=
  String.mk (List.map Char.toLower s.data)

/-- URL normalization for the product link, lines 150-155 of the source:
href.startswith http passes through, a leading slash gets the base
prepended, anything else is joined with an inserted slash. -/
def resolve_href (base_url href : String) : String :=
  if py_startswith href "http" then href
  else if py_startswith href "/" then base_url ++ href
  else base_url ++ "/" ++ href

/-- Name block (lines 100-107): or-chain of four selectors; the name key is
set only when some selector matched. -/
def step_name (c : Container) (product : Dict) : Except String Dict := do
  let name_element ← select_first c
    [".unit-desc .unit-btn", ".unit-desc a", "[class*=\"name\"]", ".unit-desc"]
  pure (match name_element with
    | some e => dict_set product "name" (some e.text)
    | none => product)

/-- Brand block (lines 110-111): single selector, value None when unmatched. -/
def step_brand (c : Container) (product : Dict) : Except String Dict := do
  let brand_element ← c.select_one "[class*=\"brand\"]"
  pure (dict_set product "brand" (elem_text brand_element))

/-- Price block (lines 114-119): or-chain of three selectors, value None when
none matched. -/
def step_price (c : Container) (product : Dict) : Except String Dict := do
  let price_element ← select_first c
    ["[class*=\"price\"]", ".unit-price", "[class*=\"cost\"]"]
  pure (dict_set product "price" (elem_text price_element))

/-- Original-price block (lines 122-127). -/
def step_original_price (c : Container) (product : Dict) : Except String Dict := do
  let original_price_element ← select_first c
    ["[class*=\"original\"]", "[class*=\"regular\"]", "[class*=\"before\"]"]
  pure (dict_set product "original_price" (elem_text original_price_element))

/-- Rating block (lines 130-135). -/
def step_rating (c : Container) (product : Dict) : Except String Dict := do
  let rating_element ← select_first c
    ["[class*=\"rating\"]", "[class*=\"star\"]", "[class*=\"score\"]"]
  pure (dict_set product "rating" (elem_text rating_element))

/-- Review-count block (lines 138-139). -/
def step_review_count (c : Container) (product : Dict) : Except String Dict := do
  let review_element ← c.select_one "[class*=\"review\"]"
  pure (dict_set product "review_count" (elem_text review_element))

/-- Product-URL block (lines 142-155): the url key is set only when a link
element matched and its href attribute is truthy; the href is then
normalized against base_url. -/
def step_url (s : Scraper) (c : Container) (product : Dict) : Except String Dict := do
  let link_element ← select_first c
    [".unit-thumb a", ".unit-desc a", "a[href*=\"product\"]"]
  pure (match link_element with
    | some le =>
      match le.attr "href" with
      | some href =>
        if href ≠ "" then dict_set product "url" (some (resolve_href s.base_url href))
        else product
      | none => product
    | none => product)

/-- Image-URL block (lines 158-164): the image_url key is set only when an img
element matched; its value is src or data-src or data-lazy-src under Python
or (None and the empty string are falsy). -/
def step_image_url (c : Container) (product : Dict) : Except String Dict := do
  let img_element ← orElem (c.select_one ".unit-thumb img") (c.select_one "img")
  pure (match img_element with
    | some e =>
      dict_set product "image_url"
        (orStr (orStr (e.attr "src") (e.attr "data-src")) (e.attr "data-lazy-src"))
    | none => product)

/-- Discount block (lines 169-170): one comma-joined selector string. -/
def step_discount (c : Container) (product : Dict) : Except String Dict := do
  let discount_element ← c.select_one "[class*=\"discount\"], [class*=\"sale\"]"
  pure (dict_set product "discount" (elem_text discount_element))

/-- Stock-status block (lines 173-174): defaults to Available when no stock
element matched. -/
def step_stock_status (c : Container) (product : Dict) : Except String Dict := do
  let stock_element ← c.select_one "[class*=\"stock\"], [class*=\"available\"]"
  pure (dict_set product "stock_status"
    (match stock_element with
     | some e => some e.text
     | none => some "Available"))

/-- Product-ID block (lines 177-179): the product_id key is set only when the
hidden input matched; its value attribute may itself be None. -/
def step_product_id (c : Container) (product : Dict) : Except String Dict := do
  let product_id_input ← c.select_one "input[name=\"prdtNo\"]"
  pure (match product_id_input with
    | some e => dict_set product "product_id" (e.attr "value")
    | none => product)

/-- The body of extract_product_info (lines 95-181), inside the try: build the
record field by field, then return it only when product.get name is truthy. -/
def extract_product_info_body (s : Scraper) (c : Container) : Except String (Option Dict) := do
  let product ← step_name c ([] : Dict)
  let product ← step_brand c product
  let product ← step_price c product
  let product ← step_original_price c product
  let product ← step_rating c product
  let product ← step_review_count c product
  let product ← step_url s c product
  let product ← step_image_url c product
  let product ← step_discount c product
  let product ← step_stock_status c product
  let product ← step_product_id c product
  pure (if truthyStr (dict_get product "name") then some product else none)

/-- extract_product_info (lines 90-185): any exception raised by the body is
caught (and logged) and the method returns None. -/
def extract_product_info (s : Scraper) (c : Container) : Option Dict :=
  match extract_product_info_body s c with
  | Except.ok r => r
  | Except.error _ => none

/-- extract_product_info as a state transformer on self: the body assigns no
attribute of self, so the state component it returns is the input state. -/
def extract_product_info_st (s : Scraper) (c : Container) : Option Dict × Scraper :=
  (extract_product_info s c, s)

/-- get_text_by_selectors (lines 187-193): try each selector in order and
return the first match whose stripped text is non-empty.  This helper is
defined in the source but never called. -/
def get_text_by_selectors (c : Container) : List String → Except String (Option String)
  | [] => Except.ok none
  | sel :: rest => do
    let element ← c.select_one sel
    match element with
    | some e => if e.text ≠ "" then pure (some e.text) else get_text_by_selectors c rest
    | none => get_text_by_selectors c rest

/-- A listing-page document: soup.select over selector strings, returning all
matching product containers. -/
structure Soup where
  select : String → List Container

/-- The container cascade of scrape_current_page (lines 58-62): the exact
listing selector first, then the two fallbacks combined with Python or
(an empty list is falsy). -/
def product_containers (soup : Soup) : List Container :=
  let pc := soup.select "ul.categoryProductList.unit-list li.prdt-unit"
  if pc.isEmpty then
    (let a := soup.select ".prdt-unit"
     if a.isEmpty then soup.select ".product-unit-wrap" else a)
  else pc

/-- The retention test of the page loop (line 84): keep a record only when
extract_product_info returned one and product_data.get name is truthy. -/
def retained (s : Scraper) (c : Container) : Option Dict :=
  match extract_product_info s c with
  | some d => if truthyStr (dict_get d "name") then some d else none
  | none => none

/-- The per-page product loop (lines 79-85): enumerate the containers, break
at index 50, append each retained record. -/
def scrape_loop (s : Scraper) (pcs : List Container) : List Dict :=
  List.filterMap (retained s) (pcs.take 50)

/-- scrape_current_page (lines 44-88): resolve the container cascade; with no
containers return the empty list, otherwise run the capped product loop. -/
def scrape_current_page (s : Scraper) (soup : Soup) : List Dict :=
  let pcs := product_containers soup
  if pcs.isEmpty then [] else scrape_loop s pcs

/-- The three-way directive at the per-page prompt (lines 219-226). -/
inductive Directive
  | stop
  | manual
  | auto
deriving DecidableEq

/-- Parsing of the continuation prompt answer (lines 219-226): lower-case the
input; n stops, manual blocks for manual advance, anything else takes the
automatic-advance branch. -/
def parse_directive (s : String) : Directive :=
  let user_input := py_lower s
  if user_input = "n" then Directive.stop
  else if user_input = "manual" then Directive.manual
  else Directive.auto

/-- The page loop of scrape_multiple_pages (lines 201-253), from a given page
index.  pages gives the scrape result of each visited page index, inputs the
answer typed at the prompt after that page.  Returns the accumulated records
and the trace of visited page indices.  Manual and automatic advance differ
only in navigation side effects, so both continue the loop. -/
def scrape_pages_from (pages : Nat → List Dict) (inputs : Nat → String)
    (max_pages : Nat) (page_num : Nat) (acc : List Dict) (visited : List Nat) :
    List Dict × List Nat :=
  if _h : page_num < max_pages then
    if (pages page_num).isEmpty then (acc ++ pages page_num, visited ++ [page_num])
    else if page_num < max_pages - 1 then
      match parse_directive (inputs page_num) with
      | Directive.stop => (acc ++ pages page_num, visited ++ [page_num])
      | _ => scrape_pages_from pages inputs max_pages (page_num + 1)
          (acc ++ pages page_num) (visited ++ [page_num])
    else scrape_pages_from pages inputs max_pages (page_num + 1)
      (acc ++ pages page_num) (visited ++ [page_num])
  else (acc, visited)
termination_by max_pages - page_num

/-- scrape_multiple_pages (lines 195-254): run the page loop from page 0 with
an empty accumulator. -/
def scrape_multiple_pages (pages : Nat → List Dict) (inputs : Nat → String)
    (max_pages : Nat) : List Dict × List Nat :=
  scrape_pages_from pages inputs max_pages 0 [] []

/-- Modelled from the spec: a shade variant sub-record (spec section 3).  The
variant-extracting scraper of the repository is absent from src, so this type
and the two definitions after it follow the words of the spec. -/
structure VariantRecord where
  shade_name : String
  shade_image : Option String
deriving DecidableEq

/-- Modelled from the spec: the detail-page renderer as the Variant Extractor
sees it (spec sections 4.2 and 6); navigating to a product URL either fails
(navigation timeout or any other exception) or yields the variant containers
found, each carrying an optional shade-name text and an optional image
source. -/
def DetailRenderer : Type := String → Except String (List (Option String × Option String))

/-- Modelled from the spec: extract_variants(product_url) of spec section 4.2,
absent from src/scrapper.py.  On any failure the empty list; otherwise one
VariantRecord per container that has a shade name, in markup order. -/
def extract_variants (r : DetailRenderer) (product_url : String) : List VariantRecord :=
  match r product_url with
  | Except.error _ => []
  | Except.ok containers =>
    containers.filterMap (fun v =>
      match v.1 with
      | some nm => some { shade_name := nm, shade_image := v.2 }
      | none => none)

/-- Modelled from the spec: the page loop of the scraper variant that invokes
the Variant Extractor (spec section 4.3), absent from src/scrapper.py:
enumerate up to 50 fragments, keep named records, and when the record has a
resolvable url attach the variants extracted from that url before appending
the record, regardless of the variant outcome. -/
def scrape_page_with_variants (s : Scraper) (r : DetailRenderer) (pcs : List Container) :
    List (Dict × List VariantRecord) :=
  (pcs.take 50).filterMap (fun c =>
    match retained s c with
    | some d =>
      match dict_get d "url" with
      | some u => some (d, extract_variants r u)
      | none => some (d, [])
    | none => none)

/-- Scheme-prefixed in the sense of the claim on URL normalization: a
non-empty scheme part followed by the three separator characters somewhere in
the string. -/
def scheme_prefixed (s : String) : Bool :=
  (List.range s.data.length).any (fun i =>
    decide (0 < i) && (List.take 3 (List.drop i s.data) == [':', '/', '/']))

/-- A fragment on which every selector query succeeds with no match. -/
def c_empty : Container := { select_one := fun _ => Except.ok none }

/-- A fragment where only the first name selector matches, with text X. -/
def c_name_only : Container :=
  { select_one := fun sel =>
      if sel = ".unit-desc .unit-btn" then
        Except.ok (some { text := "X", attr := fun _ => none })
      else Except.ok none }

/-- A fragment whose first price selector matches an element with empty
stripped text while the second price selector matches an element with text
1000; the first name selector matches with text X. -/
def c_price_empty : Container :=
  { select_one := fun sel =>
      if sel = ".unit-desc .unit-btn" then
        Except.ok (some { text := "X", attr := fun _ => none })
      else if sel = "[class*=\"price\"]" then
        Except.ok (some { text := "", attr := fun _ => none })
      else if sel = ".unit-price" then
        Except.ok (some { text := "1000", attr := fun _ => none })
      else Except.ok none }

/-- A malformed fragment: every selector query raises. -/
def c_raising : Container := { select_one := fun _ => Except.error "boom" }

/-- A fragment with a name and a root-relative product link. -/
def c_with_link : Container :=
  { select_one := fun sel =>
      if sel = ".unit-desc .unit-btn" then
        Except.ok (some { text := "X", attr := fun _ => none })
      else if sel = ".unit-thumb a" then
        Except.ok (some (Element.mk ""
          (fun a => if a = "href" then some "/p/1" else none)))
      else Except.ok none }

/-- A fragment with a name, an img element with no source attributes, and a
product-id input with no value attribute. -/
def c_img_noattr : Container :=
  { select_one := fun sel =>
      if sel = ".unit-desc .unit-btn" then
        Except.ok (some (Element.mk "X" (fun _ => none)))
      else if sel = ".unit-thumb img" then
        Except.ok (some (Element.mk "" (fun _ => none)))
      else if sel = "input[name=\"prdtNo\"]" then
        Except.ok (some (Element.mk "" (fun _ => none)))
      else Except.ok none }

/-- A detail renderer knowing one product URL with two variant containers, one
of which lacks a shade name; every other URL fails. -/
def r_detail : DetailRenderer := fun u =>
  if u = "https://global.oliveyoung.com/p/1" then
    Except.ok [(some "Rose", some "rose.jpg"), (none, some "bare.jpg")]
  else Except.error "nav"

/-- A listing document with a single fragment, bearing only a name. -/
def soup_one : Soup :=
  { select := fun sel =>
      if sel = "ul.categoryProductList.unit-list li.prdt-unit" then [c_name_only]
      else [] }

/-- Per-page scrape results three records, none, one record: the example run
of the pagination claim. -/
def pages_example : Nat → List Dict := fun n =>
  if n = 0 then [[("name", some "A")], [("name", some "B")], [("name", some "C")]]
  else if n = 2 then
    [[("name", some "D")], [("name", some "E")], [("name", some "F")],
     [("name", some "G")], [("name", some "H")]]
  else []


lemma ok_bind {α β : Type} (a : α) (f : α → Except String β) :
    (Except.ok a : Except String α) >>= f = f a := rfl

lemma error_bind {α β : Type} (e : String) (f : α → Except String β) :
    (Except.error e : Except String α) >>= f = Except.error e := rfl

lemma orElem_ok_some (e : Element) (b : Except String (Option Element)) :
    orElem (Except.ok (some e)) b = Except.ok (some e) := rfl

lemma orElem_ok_none (b : Except String (Option Element)) :
    orElem (Except.ok none) b = b := rfl

lemma orElem_error (err : String) (b : Except String (Option Element)) :
    orElem (Except.error err) b = Except.error err := rfl

lemma select_first_of_some (c : Container) (e : Element) (rest : List String) :
    rest.foldl (fun acc s => orElem acc (c.select_one s)) (Except.ok (some e)) =
      Except.ok (some e) := by
  induction rest with
  | nil => rfl
  | cons hd tl ih => simpa [orElem_ok_some] using ih

/-- C10: at the per-page continuation prompt the input is lower-cased and
compared against exactly n and manual: n in any letter case stops, manual in
any letter case blocks for manual advance, and every other input, the empty
string included, takes the automatic-advance branch. -/
theorem c10_directive_parsing :
    (∀ s : String, py_lower s = "n" → parse_directive s = Directive.stop) ∧
    (∀ s : String, py_lower s = "manual" → parse_directive s = Directive.manual) ∧
    (∀ s : String, py_lower s ≠ "n" → py_lower s ≠ "manual" →
      parse_directive s = Directive.auto) ∧
    parse_directive "N" = Directive.stop ∧
    parse_directive "MANUAL" = Directive.manual ∧
    parse_directive "Manual" = Directive.manual ∧
    parse_directive "" = Directive.auto ∧
    parse_directive "yes" = Directive.auto := by
  refine ⟨?_, ?_, ?_, by decide, by decide, by decide, by decide, by decide⟩
  · intro s h
    simp [parse_directive, h]
  · intro s h
    simp [parse_directive, h]
  · intro s h1 h2
    simp [parse_directive, h1, h2]

/-- C10 witness: the general clauses of the parsing theorem instantiated at
concrete prompt answers. -/
theorem c10_directive_parsing_witness :
    parse_directive "n" = Directive.stop ∧
    parse_directive "manual" = Directive.manual ∧
    parse_directive "y" = Directive.auto :=
  ⟨c10_directive_parsing.1 "n" (by decide),
   c10_directive_parsing.2.1 "manual" (by decide),
   c10_directive_parsing.2.2.1 "y" (by decide) (by decide)⟩

/-- C7 amended: the code tests the literal character prefixes http and the
slash, not general scheme-prefixing: an href starting with http passes
through unchanged, otherwise a leading slash gets the base origin prepended,
and every remaining href is joined to the base origin with an inserted
slash; the three example hrefs of the claim behave as stated. -/
theorem c7_url_normalization :
    (∀ base href : String, py_startswith href "http" = true → resolve_href base href = href) ∧
    (∀ base href : String, py_startswith href "http" = false → py_startswith href "/" = true →
      resolve_href base href = base ++ href) ∧
    (∀ base href : String, py_startswith href "http" = false → py_startswith href "/" = false →
      resolve_href base href = base ++ "/" ++ href) ∧
    resolve_href "https://x.test" "/p/1" = "https://x.test/p/1" ∧
    resolve_href "https://x.test" "p/1" = "https://x.test/p/1" ∧
    resolve_href "https://x.test" "https://y.test/p/1" = "https://y.test/p/1" := by
  refine ⟨?_, ?_, ?_, by decide, by decide, by decide⟩
  · intro base href h
    simp [resolve_href, h]
  · intro base href h1 h2
    simp [resolve_href, h1, h2]
  · intro base href h1 h2
    simp [resolve_href, h1, h2]

/-- C7 witness: the three normalization clauses instantiated at the concrete
hrefs of the claim. -/
theorem c7_url_normalization_witness :
    resolve_href "https://x.test" "https://y.test/p/1" = "https://y.test/p/1" ∧
    resolve_href "https://x.test" "/p/1" = "https://x.test/p/1" ∧
    resolve_href "https://x.test" "p/1" = "https://x.test/p/1" :=
  ⟨c7_url_normalization.1 "https://x.test" "https://y.test/p/1" (by decide),
   c7_url_normalization.2.1 "https://x.test" "/p/1" (by decide) (by decide),
   c7_url_normalization.2.2.1 "https://x.test" "p/1" (by decide) (by decide)⟩

/-- C7 counterexample: the href httpdocs/p/1 is neither scheme-prefixed nor
root-relative, so under the claim it would be joined to the base with an
inserted slash, but the code passes every href starting with the literal
characters http through unchanged. -/
theorem c7_counterexample :
    scheme_prefixed "httpdocs/p/1" = false ∧
    py_startswith "httpdocs/p/1" "/" = false ∧
    resolve_href "https://x.test" "httpdocs/p/1" = "httpdocs/p/1" ∧
    "httpdocs/p/1" ≠ "https://x.test/httpdocs/p/1" := by
  refine ⟨by decide, by decide, by decide, by decide⟩

/-- C4: the page loop processes at most the first 50 containers: its result
never holds more than 50 records, the containers beyond the first 50 never
influence the result, and scrape_current_page is so bounded on every listing
document. -/
theorem c4_page_cap :
    (∀ (s : Scraper) (pcs : List Container), (scrape_loop s pcs).length ≤ 50) ∧
    (∀ (s : Scraper) (pcs : List Container),
      scrape_loop s pcs = scrape_loop s (pcs.take 50)) ∧
    (∀ (s : Scraper) (soup : Soup), (scrape_current_page s soup).length ≤ 50) := by
  have hlen : ∀ (s : Scraper) (pcs : List Container), (scrape_loop s pcs).length ≤ 50 := by
    intro s pcs
    calc (scrape_loop s pcs).length ≤ (pcs.take 50).length :=
          List.length_filterMap_le _ _
      _ ≤ 50 := List.length_take_le 50 pcs
  refine ⟨hlen, ?_, ?_⟩
  · intro s pcs
    unfold scrape_loop
    rw [List.take_take]
    norm_num
  · intro s soup
    unfold scrape_current_page
    by_cases h : (product_containers soup).isEmpty
    · simp [h]
    · simpa [h] using hlen s (product_containers soup)

lemma scrape_pages_from_reaches_empty (pages : Nat → List Dict) (inputs : Nat → String)
    (max_pages i : Nat) (hi : i < max_pages)
    (hbefore : ∀ j, j < i → pages j ≠ [] ∧ parse_directive (inputs j) ≠ Directive.stop)
    (hempty : pages i = []) :
    ∀ (k page_num : Nat) (acc : List Dict) (visited : List Nat),
      page_num + k = i →
      scrape_pages_from pages inputs max_pages page_num acc visited =
        (acc ++ (List.map pages (List.range' page_num k)).flatten,
         visited ++ List.range' page_num (k + 1)) := by
  intro k
  induction k with
  | zero =>
    intro page_num acc visited hpk
    obtain rfl : page_num = i := by omega
    rw [scrape_pages_from]
    rw [dif_pos hi]
    rw [hempty]
    simp [List.range']
  | succ k ih =>
    intro page_num acc visited hpk
    have hlt : page_num < i := by omega
    have hlt2 : page_num < max_pages := by omega
    have hlt3 : page_num < max_pages - 1 := by omega
    have hne : pages page_num ≠ [] := (hbefore _ hlt).1
    have hns : parse_directive (inputs page_num) ≠ Directive.stop := (hbefore _ hlt).2
    have hemp : ((pages page_num).isEmpty = true) = False := by
      simp [List.isEmpty_iff, hne]
    rw [scrape_pages_from]
    rw [dif_pos hlt2]
    rw [if_neg (by simp [List.isEmpty_iff, hne]), if_pos hlt3]
    have hrec := ih (page_num + 1) (acc ++ pages page_num) (visited ++ [page_num]) (by omega)
    have hrange : List.range' page_num (k + 1) = page_num :: List.range' (page_num + 1) k := rfl
    have hrange2 : List.range' page_num (k + 2) = page_num :: List.range' (page_num + 1) (k + 1) := rfl
    cases hd : parse_directive (inputs page_num) with
    | stop => exact absurd hd hns
    | manual =>
      rw [hrec, hrange, hrange2]
      simp [List.append_assoc]
    | auto =>
      rw [hrec, hrange, hrange2]
      simp [List.append_assoc]

/-- C3: whenever the page scraper returns an empty list on a visited page, no
later page is ever visited and the run returns exactly the concatenation, in
visit order, of the records of the pages scraped before that page. -/
theorem c3_empty_page_stops (pages : Nat → List Dict) (inputs : Nat → String)
    (max_pages i : Nat) (hi : i < max_pages)
    (hbefore : ∀ j, j < i → pages j ≠ [] ∧ parse_directive (inputs j) ≠ Directive.stop)
    (hempty : pages i = []) :
    scrape_multiple_pages pages inputs max_pages =
      ((List.map pages (List.range i)).flatten, List.range (i + 1)) := by
  unfold scrape_multiple_pages
  have h := scrape_pages_from_reaches_empty pages inputs max_pages i hi hbefore hempty i 0
    [] [] (by omega)
  rw [h]
  simp [List.range_eq_range']

/-- C3 witness: the example run of the claim: per-page results of three
records, none, five records with max_pages five stop after the second page,
never visit page three, and return exactly the three records of page one. -/
theorem c3_empty_page_stops_witness :
    scrape_multiple_pages pages_example (fun _ => "y") 5 =
      ([[("name", some "A")], [("name", some "B")], [("name", some "C")]], [0, 1]) := by
  have h := c3_empty_page_stops pages_example (fun _ => "y") 5 1 (by omega)
    (fun j hj => by
      obtain rfl : j = 0 := by omega
      exact ⟨by decide, by decide⟩)
    (by decide)
  rw [h]
  decide

/-- C9: re-extracting the same static fragment yields the identical record
and leaves the scraper state unchanged: the extractor reads only base_url and
its input fragment, and the method body assigns no attribute of self. -/
theorem c9_extract_idempotent (s : Scraper) (c : Container) :
    extract_product_info_st s c = (extract_product_info s c, s) ∧
    extract_product_info_st (extract_product_info_st s c).2 c = extract_product_info_st s c :=
  ⟨rfl, rfl⟩

/-- C8: any exception raised during extraction of one product is caught and
yields absent for that product, and the page loop keeps the records of all
remaining fragments: a single malformed fragment never aborts the page
scrape. -/
theorem c8_exception_isolated :
    (∀ (s : Scraper) (c : Container) (e : String),
        extract_product_info_body s c = Except.error e →
        extract_product_info s c = none) ∧
    (∀ (s : Scraper) (pre post : List Container) (bad : Container) (e : String),
        extract_product_info_body s bad = Except.error e →
        (pre ++ bad :: post).length ≤ 50 →
        scrape_loop s (pre ++ bad :: post) = scrape_loop s pre ++ scrape_loop s post) := by
  have h1 : ∀ (s : Scraper) (c : Container) (e : String),
      extract_product_info_body s c = Except.error e → extract_product_info s c = none := by
    intro s c e h
    unfold extract_product_info
    rw [h]
  refine ⟨h1, ?_⟩
  intro s pre post bad e hbad hlen
  have hret : retained s bad = none := by
    unfold retained
    rw [h1 s bad e hbad]
  have hpre : pre.length ≤ 50 := by
    simp [List.length_append] at hlen
    omega
  have hpost : post.length ≤ 50 := by
    simp [List.length_append] at hlen
    omega
  have hall : (pre ++ bad :: post).length ≤ 50 := by
    simp [List.length_append] at hlen ⊢
    omega
  unfold scrape_loop
  rw [List.take_of_length_le hall, List.take_of_length_le hpre, List.take_of_length_le hpost]
  rw [List.filterMap_append]
  simp [hret]

/-- C8 witness: a fragment whose every query raises, placed between two
well-formed fragments, yields absent while both neighbours still produce
their records. -/
theorem c8_exception_isolated_witness :
    extract_product_info scraper_default c_raising = none ∧
    scrape_loop scraper_default ([c_name_only] ++ c_raising :: [c_name_only]) =
      scrape_loop scraper_default [c_name_only] ++ scrape_loop scraper_default [c_name_only] :=
  ⟨c8_exception_isolated.1 scraper_default c_raising "boom" rfl,
   c8_exception_isolated.2 scraper_default [c_name_only] [c_name_only] c_raising "boom"
     rfl (by decide)⟩

/-- C6 corrected form: in the extraction or-chains the first selector that
matches any element wins, whatever the text of that element: a match whose
stripped text is empty is used, not skipped; the first-non-empty-text
semantics exists only in the helper get_text_by_selectors, which no code
path invokes.  Stated generically for a chain and for the price field. -/
theorem c6_first_match_wins :
    (∀ (c : Container) (sel : String) (rest : List String) (e : Element),
        c.select_one sel = Except.ok (some e) →
        select_first c (sel :: rest) = Except.ok (some e)) ∧
    (∀ (c : Container) (p : Dict) (e : Element),
        c.select_one "[class*=\"price\"]" = Except.ok (some e) →
        step_price c p = Except.ok (dict_set p "price" (some e.text))) := by
  have hfirst : ∀ (c : Container) (sel : String) (rest : List String) (e : Element),
      c.select_one sel = Except.ok (some e) →
      select_first c (sel :: rest) = Except.ok (some e) := by
    intro c sel rest e h
    unfold select_first
    simp only [List.foldl_cons]
    rw [orElem_ok_none, h]
    exact select_first_of_some c e rest
  refine ⟨hfirst, ?_⟩
  intro c p e h
  unfold step_price
  rw [hfirst c _ [".unit-price", "[class*=\"cost\"]"] e h]
  rfl

/-- C6 witness: the first-match clauses at a concrete fragment whose first
price selector matches an element with empty stripped text. -/
theorem c6_first_match_wins_witness :
    select_first c_price_empty ["[class*=\"price\"]", ".unit-price", "[class*=\"cost\"]"] =
      Except.ok (some (Element.mk "" (fun _ => none))) ∧
    step_price c_price_empty [] = Except.ok (dict_set [] "price" (some "")) :=
  ⟨c6_first_match_wins.1 c_price_empty "[class*=\"price\"]"
     [".unit-price", "[class*=\"cost\"]"] (Element.mk "" (fun _ => none)) rfl,
   c6_first_match_wins.2 c_price_empty [] (Element.mk "" (fun _ => none)) rfl⟩

/-- C6 counterexample: on c_price_empty the first price selector matches an
element with empty stripped text and the second matches one with text 1000;
the code stores the empty text, while the first-non-empty semantics of the
claim (implemented only by the never-called helper) would yield 1000. -/
theorem c6_counterexample :
    extract_product_info scraper_default c_price_empty =
      some [("name", some "X"), ("brand", none), ("price", some ""),
            ("original_price", none), ("rating", none), ("review_count", none),
            ("discount", none), ("stock_status", some "Available")] ∧
    dict_get [("name", some "X"), ("brand", none), ("price", some ""),
              ("original_price", none), ("rating", none), ("review_count", none),
              ("discount", none), ("stock_status", some "Available")] "price" = some "" ∧
    get_text_by_selectors c_price_empty
      ["[class*=\"price\"]", ".unit-price", "[class*=\"cost\"]"] =
      Except.ok (some "1000") :=
  ⟨by decide, by decide, rfl⟩

/-- C5 counterexample: on a fragment where no url, image, or product-id
selector matches (every query besides the first name selector returns no
match), the record omits the url, image_url, product_id and variants keys
entirely, where the claim would have each present with a null value. -/
theorem c5_counterexample :
    extract_product_info scraper_default c_name_only =
      some [("name", some "X"), ("brand", none), ("price", none),
            ("original_price", none), ("rating", none), ("review_count", none),
            ("discount", none), ("stock_status", some "Available")] ∧
    dict_has [("name", some "X"), ("brand", none), ("price", none),
              ("original_price", none), ("rating", none), ("review_count", none),
              ("discount", none), ("stock_status", some "Available")] "url" = false ∧
    dict_has [("name", some "X"), ("brand", none), ("price", none),
              ("original_price", none), ("rating", none), ("review_count", none),
              ("discount", none), ("stock_status", some "Available")] "image_url" = false ∧
    dict_has [("name", some "X"), ("brand", none), ("price", none),
              ("original_price", none), ("rating", none), ("review_count", none),
              ("discount", none), ("stock_status", some "Available")] "product_id" = false ∧
    dict_has [("name", some "X"), ("brand", none), ("price", none),
              ("original_price", none), ("rating", none), ("review_count", none),
              ("discount", none), ("stock_status", some "Available")] "variants" = false ∧
    c_name_only.select_one ".unit-thumb a" = Except.ok none ∧
    c_name_only.select_one ".unit-desc a" = Except.ok none ∧
    c_name_only.select_one "a[href*=\"product\"]" = Except.ok none :=
  ⟨by decide, by decide, by decide, by decide, by decide, rfl, rfl, rfl⟩

lemma pure_eq_ok {α : Type} (a : α) : (pure a : Except String α) = Except.ok a := rfl

lemma bind_eq_ok {α β : Type} {x : Except String α} {f : α → Except String β} {b : β}
    (h : (x >>= f) = Except.ok b) : ∃ a, x = Except.ok a ∧ f a = Except.ok b := by
  cases x with
  | error e => rw [error_bind] at h; exact absurd h (by simp)
  | ok a => exact ⟨a, rfl, by rwa [ok_bind] at h⟩

lemma any_map_key (p : List (String × Option String)) (k k2 : String) (v : Option String)
    (h : k ≠ k2) :
    List.any (List.map (fun q => if q.1 = k2 then (k2, v) else q) p) (fun q => q.1 = k) =
      List.any p (fun q => q.1 = k) := by
  induction p with
  | nil => rfl
  | cons hd tl ih =>
    simp only [List.map_cons, List.any_cons, ih]
    by_cases hc : hd.1 = k2
    · rw [if_pos hc]
      simp [hc, Ne.symm h]
    · rw [if_neg hc]

lemma dict_has_set_ne (p : Dict) (k k2 : String) (v : Option String) (h : k ≠ k2) :
    dict_has (dict_set p k2 v) k = dict_has p k := by
  unfold dict_has dict_set
  by_cases hany : List.any p (fun q => q.1 = k2)
  · rw [if_pos hany]
    exact any_map_key p k k2 v h
  · rw [if_neg hany]
    rw [List.append_eq, List.any_append]
    simp [Ne.symm h]

lemma dict_get_of_has_eq_false (d : Dict) (k : String) (h : dict_has d k = false) :
    dict_get d k = none := by
  unfold dict_get
  have hfind : List.find? (fun p => p.1 = k) d = none := by
    rw [List.find?_eq_none]
    intro x hx hxk
    have hmem : dict_has d k = true := by
      unfold dict_has
      rw [List.any_eq_true]
      exact ⟨x, hx, hxk⟩
    rw [hmem] at h
    exact absurd h (by simp)
  rw [hfind]

lemma bind_set_has (q : Except String (Option Element)) (p r : Dict) (key k : String)
    (g : Option Element → Option String) (hk : k ≠ key)
    (h : (q >>= fun x => (pure (dict_set p key (g x)) : Except String Dict)) = Except.ok r) :
    dict_has r k = dict_has p k := by
  obtain ⟨a, -, ha⟩ := bind_eq_ok h
  have hr : dict_set p key (g a) = r := by
    rw [pure_eq_ok] at ha
    exact Except.ok.inj ha
  rw [← hr, dict_has_set_ne p k key (g a) hk]

lemma bind_opt_set_has (q : Except String (Option Element)) (p r : Dict) (key k : String)
    (g : Element → Option String) (hk : k ≠ key)
    (h : (q >>= fun x => (pure (match x with
          | some e => dict_set p key (g e)
          | none => p) : Except String Dict)) = Except.ok r) :
    dict_has r k = dict_has p k := by
  obtain ⟨a, -, ha⟩ := bind_eq_ok h
  rw [pure_eq_ok] at ha
  have ha2 := Except.ok.inj ha
  cases a with
  | none => rw [← ha2]
  | some e =>
    rw [← ha2]
    exact dict_has_set_ne p k key (g e) hk

lemma step_url_has (s : Scraper) (c : Container) (p r : Dict) (k : String) (hk : k ≠ "url")
    (h : step_url s c p = Except.ok r) : dict_has r k = dict_has p k := by
  unfold step_url at h
  obtain ⟨a, -, ha⟩ := bind_eq_ok h
  rw [pure_eq_ok] at ha
  have ha2 := Except.ok.inj ha
  cases a with
  | none => rw [← ha2]
  | some le =>
    simp only [] at ha2
    cases hattr : le.attr "href" with
    | none =>
      rw [hattr] at ha2
      rw [← ha2]
    | some href =>
      rw [hattr] at ha2
      simp only [] at ha2
      by_cases hh : href = ""
      · rw [if_neg (by simp [hh])] at ha2
        rw [← ha2]
      · rw [if_pos (by simpa using hh)] at ha2
        rw [← ha2]
        exact dict_has_set_ne p k "url" _ hk

/-- C2: a fragment in which no name selector matches yields absent, never a
record with a null name; and every record the page loop appends to the page
result list has a non-null, non-empty name. -/
theorem c2_name_required :
    (∀ (s : Scraper) (c : Container),
        c.select_one ".unit-desc .unit-btn" = Except.ok none →
        c.select_one ".unit-desc a" = Except.ok none →
        c.select_one "[class*=\"name\"]" = Except.ok none →
        c.select_one ".unit-desc" = Except.ok none →
        extract_product_info s c = none) ∧
    (∀ (s : Scraper) (soup : Soup) (rec : Dict),
        rec ∈ scrape_current_page s soup →
        dict_get rec "name" ≠ none ∧ dict_get rec "name" ≠ some "") := by
  constructor
  · intro s c h1 h2 h3 h4
    have hsel : select_first c
        [".unit-desc .unit-btn", ".unit-desc a", "[class*=\"name\"]", ".unit-desc"] =
        Except.ok none := by
      unfold select_first
      simp only [List.foldl_cons, List.foldl_nil]
      rw [orElem_ok_none, h1, orElem_ok_none, h2, orElem_ok_none, h3, orElem_ok_none, h4]
    have hname : step_name c [] = Except.ok [] := by
      unfold step_name
      rw [hsel]
      rfl
    cases hbody : extract_product_info_body s c with
    | error e =>
      unfold extract_product_info
      rw [hbody]
    | ok r =>
      unfold extract_product_info
      rw [hbody]
      show r = none
      unfold extract_product_info_body at hbody
      rw [hname] at hbody
      simp only [ok_bind] at hbody
      obtain ⟨p1, hb1, hbody⟩ := bind_eq_ok hbody
      unfold step_brand at hb1
      have k1 : dict_has p1 "name" = dict_has ([] : Dict) "name" :=
        bind_set_has _ [] p1 "brand" "name" elem_text (by decide) hb1
      obtain ⟨p2, hb2, hbody⟩ := bind_eq_ok hbody
      unfold step_price at hb2
      have k2 : dict_has p2 "name" = dict_has p1 "name" :=
        bind_set_has _ p1 p2 "price" "name" elem_text (by decide) hb2
      obtain ⟨p3, hb3, hbody⟩ := bind_eq_ok hbody
      unfold step_original_price at hb3
      have k3 : dict_has p3 "name" = dict_has p2 "name" :=
        bind_set_has _ p2 p3 "original_price" "name" elem_text (by decide) hb3
      obtain ⟨p4, hb4, hbody⟩ := bind_eq_ok hbody
      unfold step_rating at hb4
      have k4 : dict_has p4 "name" = dict_has p3 "name" :=
        bind_set_has _ p3 p4 "rating" "name" elem_text (by decide) hb4
      obtain ⟨p5, hb5, hbody⟩ := bind_eq_ok hbody
      unfold step_review_count at hb5
      have k5 : dict_has p5 "name" = dict_has p4 "name" :=
        bind_set_has _ p4 p5 "review_count" "name" elem_text (by decide) hb5
      obtain ⟨p6, hb6, hbody⟩ := bind_eq_ok hbody
      have k6 : dict_has p6 "name" = dict_has p5 "name" :=
        step_url_has s c p5 p6 "name" (by decide) hb6
      obtain ⟨p7, hb7, hbody⟩ := bind_eq_ok hbody
      unfold step_image_url at hb7
      have k7 : dict_has p7 "name" = dict_has p6 "name" :=
        bind_opt_set_has _ p6 p7 "image_url" "name"
          (fun e => orStr (orStr (e.attr "src") (e.attr "data-src")) (e.attr "data-lazy-src"))
          (by decide) hb7
      obtain ⟨p8, hb8, hbody⟩ := bind_eq_ok hbody
      unfold step_discount at hb8
      have k8 : dict_has p8 "name" = dict_has p7 "name" :=
        bind_set_has _ p7 p8 "discount" "name" elem_text (by decide) hb8
      obtain ⟨p9, hb9, hbody⟩ := bind_eq_ok hbody
      unfold step_stock_status at hb9
      have k9 : dict_has p9 "name" = dict_has p8 "name" :=
        bind_set_has _ p8 p9 "stock_status" "name"
          (fun x => match x with | some e => some e.text | none => some "Available")
          (by decide) hb9
      obtain ⟨p10, hb10, hbody⟩ := bind_eq_ok hbody
      unfold step_product_id at hb10
      have k10 : dict_has p10 "name" = dict_has p9 "name" :=
        bind_opt_set_has _ p9 p10 "product_id" "name"
          (fun e => e.attr "value") (by decide) hb10
      have hhas : dict_has p10 "name" = false := by
        rw [k10, k9, k8, k7, k6, k5, k4, k3, k2, k1]
        rfl
      have hget : dict_get p10 "name" = none := dict_get_of_has_eq_false p10 "name" hhas
      rw [pure_eq_ok] at hbody
      have hr := Except.ok.inj hbody
      rw [hget] at hr
      simp only [truthyStr] at hr
      rw [if_neg (by simp)] at hr
      exact hr.symm
  · intro s soup rec hmem
    unfold scrape_current_page at hmem
    by_cases hp : (product_containers soup).isEmpty
    · rw [if_pos hp] at hmem
      exact absurd hmem (by simp)
    · rw [if_neg hp] at hmem
      unfold scrape_loop at hmem
      rw [List.mem_filterMap] at hmem
      obtain ⟨c, -, hc⟩ := hmem
      unfold retained at hc
      cases hx : extract_product_info s c with
      | none => rw [hx] at hc; exact absurd hc (by simp)
      | some d =>
        rw [hx] at hc
        simp only [] at hc
        by_cases hT : truthyStr (dict_get d "name")
        · rw [if_pos hT] at hc
          obtain rfl : d = rec := Option.some.inj hc
          cases hg : dict_get d "name" with
          | none => rw [hg] at hT; exact absurd hT (by simp [truthyStr])
          | some v =>
            rw [hg] at hT
            refine ⟨by simp, ?_⟩
            intro hv
            have hv2 : v = "" := Option.some.inj hv
            rw [hv2] at hT
            exact absurd hT (by simp [truthyStr])
        · rw [if_neg hT] at hc
          exact absurd hc (by simp)

/-- C2 witness: on a fragment with no matches at all the extractor returns
absent, and the single record scraped from the one-product document has a
non-null, non-empty name. -/
theorem c2_name_required_witness :
    extract_product_info scraper_default c_empty = none ∧
    (dict_get [("name", some "X"), ("brand", none), ("price", none),
               ("original_price", none), ("rating", none), ("review_count", none),
               ("discount", none), ("stock_status", some "Available")] "name" ≠ none ∧
     dict_get [("name", some "X"), ("brand", none), ("price", none),
               ("original_price", none), ("rating", none), ("review_count", none),
               ("discount", none), ("stock_status", some "Available")] "name" ≠ some "") :=
  ⟨c2_name_required.1 scraper_default c_empty rfl rfl rfl rfl,
   c2_name_required.2 scraper_default soup_one
     [("name", some "X"), ("brand", none), ("price", none),
      ("original_price", none), ("rating", none), ("review_count", none),
      ("discount", none), ("stock_status", some "Available")] (by decide)⟩

lemma find?_key_map (p : List (String × Option String)) (k k2 : String) (v : Option String)
    (h : k ≠ k2) :
    List.find? (fun q => q.1 = k) (List.map (fun q => if q.1 = k2 then (k2, v) else q) p) =
      List.find? (fun q => q.1 = k) p := by
  induction p with
  | nil => rfl
  | cons hd tl ih =>
    simp only [List.map_cons]
    by_cases hc : hd.1 = k2
    · rw [if_pos hc]
      rw [List.find?_cons_of_neg _ (by simp [Ne.symm h]),
        List.find?_cons_of_neg _ (by simp [hc, Ne.symm h])]
      exact ih
    · rw [if_neg hc]
      by_cases hk : hd.1 = k
      · rw [List.find?_cons_of_pos _ (by simp [hk]), List.find?_cons_of_pos _ (by simp [hk])]
      · rw [List.find?_cons_of_neg _ (by simp [hk]), List.find?_cons_of_neg _ (by simp [hk])]
        exact ih

lemma find?_key_append (p : List (String × Option String)) (k k2 : String) (v : Option String)
    (h : k ≠ k2) :
    List.find? (fun q => q.1 = k) (p ++ [(k2, v)]) = List.find? (fun q => q.1 = k) p := by
  induction p with
  | nil => simp [List.find?, Ne.symm h]
  | cons hd tl ih =>
    rw [List.cons_append]
    by_cases hk : hd.1 = k
    · rw [List.find?_cons_of_pos _ (by simp [hk]), List.find?_cons_of_pos _ (by simp [hk])]
    · rw [List.find?_cons_of_neg _ (by simp [hk]), List.find?_cons_of_neg _ (by simp [hk])]
      exact ih

lemma find?_key_map_self (p : List (String × Option String)) (k : String) (v : Option String)
    (h : List.any p (fun q => q.1 = k) = true) :
    List.find? (fun q => q.1 = k) (List.map (fun q => if q.1 = k then (k, v) else q) p) =
      some (k, v) := by
  induction p with
  | nil => simp at h
  | cons hd tl ih =>
    simp only [List.map_cons]
    by_cases hc : hd.1 = k
    · rw [if_pos hc]
      rw [List.find?_cons_of_pos _ (by simp)]
    · rw [if_neg hc]
      rw [List.find?_cons_of_neg _ (by simp [hc])]
      apply ih
      simp only [List.any_cons, Bool.or_eq_true] at h
      rcases h with h1 | h2
      · exact absurd (by simpa using h1) hc
      · exact h2

lemma find?_key_append_self (p : List (String × Option String)) (k : String) (v : Option String)
    (h : List.any p (fun q => q.1 = k) = false) :
    List.find? (fun q => q.1 = k) (p ++ [(k, v)]) = some (k, v) := by
  induction p with
  | nil => simp [List.find?]
  | cons hd tl ih =>
    rw [List.cons_append]
    simp only [List.any_cons, Bool.or_eq_false_iff] at h
    rw [List.find?_cons_of_neg _ (by simpa using h.1)]
    exact ih h.2

lemma dict_get_set_self (p : Dict) (k : String) (v : Option String) :
    dict_get (dict_set p k v) k = v := by
  unfold dict_get dict_set
  by_cases hany : List.any p (fun q => q.1 = k)
  · rw [if_pos hany, find?_key_map_self p k v hany]
  · rw [if_neg hany, List.append_eq,
      find?_key_append_self p k v (by simp only [Bool.not_eq_true] at hany; exact hany)]

lemma dict_get_set_ne (p : Dict) (k k2 : String) (v : Option String) (h : k ≠ k2) :
    dict_get (dict_set p k2 v) k = dict_get p k := by
  unfold dict_get dict_set
  by_cases hany : List.any p (fun q => q.1 = k2)
  · rw [if_pos hany, find?_key_map p k k2 v h]
  · rw [if_neg hany, List.append_eq, find?_key_append p k k2 v h]

lemma dict_has_set_self (p : Dict) (k : String) (v : Option String) :
    dict_has (dict_set p k v) k = true := by
  unfold dict_has dict_set
  by_cases hany : List.any p (fun q => q.1 = k)
  · rw [if_pos hany]
    have hf := find?_key_map_self p k v hany
    have hmem := List.mem_of_find?_eq_some hf
    rw [List.any_eq_true]
    exact ⟨(k, v), hmem, by simp⟩
  · rw [if_neg hany, List.append_eq, List.any_append]
    simp

lemma bind_set_get (q : Except String (Option Element)) (p r : Dict) (key k : String)
    (g : Option Element → Option String) (hk : k ≠ key)
    (h : (q >>= fun x => (pure (dict_set p key (g x)) : Except String Dict)) = Except.ok r) :
    dict_get r k = dict_get p k := by
  obtain ⟨a, -, ha⟩ := bind_eq_ok h
  rw [pure_eq_ok] at ha
  have hr := Except.ok.inj ha
  rw [← hr, dict_get_set_ne p k key (g a) hk]

lemma bind_opt_set_get (q : Except String (Option Element)) (p r : Dict) (key k : String)
    (g : Element → Option String) (hk : k ≠ key)
    (h : (q >>= fun x => (pure (match x with
          | some e => dict_set p key (g e)
          | none => p) : Except String Dict)) = Except.ok r) :
    dict_get r k = dict_get p k := by
  obtain ⟨a, -, ha⟩ := bind_eq_ok h
  rw [pure_eq_ok] at ha
  have ha2 := Except.ok.inj ha
  cases a with
  | none => rw [← ha2]
  | some e =>
    rw [← ha2]
    exact dict_get_set_ne p k key (g e) hk

lemma step_url_get (s : Scraper) (c : Container) (p r : Dict) (k : String) (hk : k ≠ "url")
    (h : step_url s c p = Except.ok r) : dict_get r k = dict_get p k := by
  unfold step_url at h
  obtain ⟨a, -, ha⟩ := bind_eq_ok h
  rw [pure_eq_ok] at ha
  have ha2 := Except.ok.inj ha
  cases a with
  | none => rw [← ha2]
  | some le =>
    simp only [] at ha2
    cases hattr : le.attr "href" with
    | none =>
      rw [hattr] at ha2
      rw [← ha2]
    | some href =>
      rw [hattr] at ha2
      simp only [] at ha2
      by_cases hh : href = ""
      · rw [if_neg (by simp [hh])] at ha2
        rw [← ha2]
      · rw [if_pos (by simpa using hh)] at ha2
        rw [← ha2]
        exact dict_get_set_ne p k "url" _ hk

lemma step_name_pres (c : Container) (p r : Dict) (k : String) (hk : k ≠ "name")
    (h : step_name c p = Except.ok r) :
    dict_get r k = dict_get p k ∧ dict_has r k = dict_has p k := by
  unfold step_name at h
  exact ⟨bind_opt_set_get _ p r "name" k (fun e => some e.text) hk h,
    bind_opt_set_has _ p r "name" k (fun e => some e.text) hk h⟩

lemma step_brand_pres (c : Container) (p r : Dict) (k : String) (hk : k ≠ "brand")
    (h : step_brand c p = Except.ok r) :
    dict_get r k = dict_get p k ∧ dict_has r k = dict_has p k := by
  unfold step_brand at h
  exact ⟨bind_set_get _ p r "brand" k elem_text hk h,
    bind_set_has _ p r "brand" k elem_text hk h⟩

lemma step_price_pres (c : Container) (p r : Dict) (k : String) (hk : k ≠ "price")
    (h : step_price c p = Except.ok r) :
    dict_get r k = dict_get p k ∧ dict_has r k = dict_has p k := by
  unfold step_price at h
  exact ⟨bind_set_get _ p r "price" k elem_text hk h,
    bind_set_has _ p r "price" k elem_text hk h⟩

lemma step_original_price_pres (c : Container) (p r : Dict) (k : String)
    (hk : k ≠ "original_price") (h : step_original_price c p = Except.ok r) :
    dict_get r k = dict_get p k ∧ dict_has r k = dict_has p k := by
  unfold step_original_price at h
  exact ⟨bind_set_get _ p r "original_price" k elem_text hk h,
    bind_set_has _ p r "original_price" k elem_text hk h⟩

lemma step_rating_pres (c : Container) (p r : Dict) (k : String) (hk : k ≠ "rating")
    (h : step_rating c p = Except.ok r) :
    dict_get r k = dict_get p k ∧ dict_has r k = dict_has p k := by
  unfold step_rating at h
  exact ⟨bind_set_get _ p r "rating" k elem_text hk h,
    bind_set_has _ p r "rating" k elem_text hk h⟩

lemma step_review_count_pres (c : Container) (p r : Dict) (k : String)
    (hk : k ≠ "review_count") (h : step_review_count c p = Except.ok r) :
    dict_get r k = dict_get p k ∧ dict_has r k = dict_has p k := by
  unfold step_review_count at h
  exact ⟨bind_set_get _ p r "review_count" k elem_text hk h,
    bind_set_has _ p r "review_count" k elem_text hk h⟩

lemma step_url_pres (s : Scraper) (c : Container) (p r : Dict) (k : String) (hk : k ≠ "url")
    (h : step_url s c p = Except.ok r) :
    dict_get r k = dict_get p k ∧ dict_has r k = dict_has p k :=
  ⟨step_url_get s c p r k hk h, step_url_has s c p r k hk h⟩

lemma step_image_url_pres (c : Container) (p r : Dict) (k : String) (hk : k ≠ "image_url")
    (h : step_image_url c p = Except.ok r) :
    dict_get r k = dict_get p k ∧ dict_has r k = dict_has p k := by
  unfold step_image_url at h
  exact ⟨bind_opt_set_get _ p r "image_url" k
      (fun e => orStr (orStr (e.attr "src") (e.attr "data-src")) (e.attr "data-lazy-src")) hk h,
    bind_opt_set_has _ p r "image_url" k
      (fun e => orStr (orStr (e.attr "src") (e.attr "data-src")) (e.attr "data-lazy-src")) hk h⟩

lemma step_discount_pres (c : Container) (p r : Dict) (k : String) (hk : k ≠ "discount")
    (h : step_discount c p = Except.ok r) :
    dict_get r k = dict_get p k ∧ dict_has r k = dict_has p k := by
  unfold step_discount at h
  exact ⟨bind_set_get _ p r "discount" k elem_text hk h,
    bind_set_has _ p r "discount" k elem_text hk h⟩

lemma step_stock_status_pres (c : Container) (p r : Dict) (k : String)
    (hk : k ≠ "stock_status") (h : step_stock_status c p = Except.ok r) :
    dict_get r k = dict_get p k ∧ dict_has r k = dict_has p k := by
  unfold step_stock_status at h
  exact ⟨bind_set_get _ p r "stock_status" k
      (fun x => match x with | some e => some e.text | none => some "Available") hk h,
    bind_set_has _ p r "stock_status" k
      (fun x => match x with | some e => some e.text | none => some "Available") hk h⟩

lemma step_product_id_pres (c : Container) (p r : Dict) (k : String)
    (hk : k ≠ "product_id") (h : step_product_id c p = Except.ok r) :
    dict_get r k = dict_get p k ∧ dict_has r k = dict_has p k := by
  unfold step_product_id at h
  exact ⟨bind_opt_set_get _ p r "product_id" k (fun e => e.attr "value") hk h,
    bind_opt_set_has _ p r "product_id" k (fun e => e.attr "value") hk h⟩

lemma select_first_all_none (c : Container) :
    ∀ (ss : List String), (∀ sel ∈ ss, c.select_one sel = Except.ok none) →
      select_first c ss = Except.ok none := by
  intro ss
  induction ss with
  | nil => intro _; rfl
  | cons hd tl ih =>
    intro h
    unfold select_first
    simp only [List.foldl_cons]
    rw [orElem_ok_none, h hd (List.mem_cons_self hd tl)]
    have htl := ih (fun sel hs => h sel (List.mem_cons_of_mem hd hs))
    unfold select_first at htl
    exact htl

lemma step_brand_unmatched (c : Container) (p : Dict)
    (h : c.select_one "[class*=\"brand\"]" = Except.ok none) :
    step_brand c p = Except.ok (dict_set p "brand" none) := by
  unfold step_brand
  rw [h]
  rfl

lemma step_price_unmatched (c : Container) (p : Dict)
    (hA : c.select_one "[class*=\"price\"]" = Except.ok none)
    (hB : c.select_one ".unit-price" = Except.ok none)
    (hC : c.select_one "[class*=\"cost\"]" = Except.ok none) :
    step_price c p = Except.ok (dict_set p "price" none) := by
  unfold step_price
  rw [select_first_all_none c _ (by
    intro sel hs
    simp only [List.mem_cons, List.not_mem_nil, or_false] at hs
    rcases hs with rfl | rfl | rfl
    exacts [hA, hB, hC])]
  rfl

lemma step_original_price_unmatched (c : Container) (p : Dict)
    (hA : c.select_one "[class*=\"original\"]" = Except.ok none)
    (hB : c.select_one "[class*=\"regular\"]" = Except.ok none)
    (hC : c.select_one "[class*=\"before\"]" = Except.ok none) :
    step_original_price c p = Except.ok (dict_set p "original_price" none) := by
  unfold step_original_price
  rw [select_first_all_none c _ (by
    intro sel hs
    simp only [List.mem_cons, List.not_mem_nil, or_false] at hs
    rcases hs with rfl | rfl | rfl
    exacts [hA, hB, hC])]
  rfl

lemma step_rating_unmatched (c : Container) (p : Dict)
    (hA : c.select_one "[class*=\"rating\"]" = Except.ok none)
    (hB : c.select_one "[class*=\"star\"]" = Except.ok none)
    (hC : c.select_one "[class*=\"score\"]" = Except.ok none) :
    step_rating c p = Except.ok (dict_set p "rating" none) := by
  unfold step_rating
  rw [select_first_all_none c _ (by
    intro sel hs
    simp only [List.mem_cons, List.not_mem_nil, or_false] at hs
    rcases hs with rfl | rfl | rfl
    exacts [hA, hB, hC])]
  rfl

lemma step_review_count_unmatched (c : Container) (p : Dict)
    (h : c.select_one "[class*=\"review\"]" = Except.ok none) :
    step_review_count c p = Except.ok (dict_set p "review_count" none) := by
  unfold step_review_count
  rw [h]
  rfl

lemma step_discount_unmatched (c : Container) (p : Dict)
    (h : c.select_one "[class*=\"discount\"], [class*=\"sale\"]" = Except.ok none) :
    step_discount c p = Except.ok (dict_set p "discount" none) := by
  unfold step_discount
  rw [h]
  rfl

lemma step_stock_status_unmatched (c : Container) (p : Dict)
    (h : c.select_one "[class*=\"stock\"], [class*=\"available\"]" = Except.ok none) :
    step_stock_status c p = Except.ok (dict_set p "stock_status" (some "Available")) := by
  unfold step_stock_status
  rw [h]
  rfl

lemma step_url_unmatched (s : Scraper) (c : Container) (p : Dict)
    (hA : c.select_one ".unit-thumb a" = Except.ok none)
    (hB : c.select_one ".unit-desc a" = Except.ok none)
    (hC : c.select_one "a[href*=\"product\"]" = Except.ok none) :
    step_url s c p = Except.ok p := by
  unfold step_url
  rw [select_first_all_none c _ (by
    intro sel hs
    simp only [List.mem_cons, List.not_mem_nil, or_false] at hs
    rcases hs with rfl | rfl | rfl
    exacts [hA, hB, hC])]
  rfl

lemma step_image_url_unmatched (c : Container) (p : Dict)
    (hA : c.select_one ".unit-thumb img" = Except.ok none)
    (hB : c.select_one "img" = Except.ok none) :
    step_image_url c p = Except.ok p := by
  unfold step_image_url
  rw [hA, hB]
  rfl

lemma step_product_id_unmatched (c : Container) (p : Dict)
    (h : c.select_one "input[name=\"prdtNo\"]" = Except.ok none) :
    step_product_id c p = Except.ok p := by
  unfold step_product_id
  rw [h]
  rfl

lemma step_image_url_matched (c : Container) (p : Dict) (e : Element)
    (h : c.select_one ".unit-thumb img" = Except.ok (some e)) :
    step_image_url c p = Except.ok (dict_set p "image_url"
      (orStr (orStr (e.attr "src") (e.attr "data-src")) (e.attr "data-lazy-src"))) := by
  unfold step_image_url
  rw [h]
  rfl

lemma step_product_id_matched (c : Container) (p : Dict) (e : Element)
    (h : c.select_one "input[name=\"prdtNo\"]" = Except.ok (some e)) :
    step_product_id c p = Except.ok (dict_set p "product_id" (e.attr "value")) := by
  unfold step_product_id
  rw [h]
  rfl

lemma extract_ok_decomp (s : Scraper) (c : Container) (d : Dict)
    (h : extract_product_info s c = some d) :
    ∃ p1 p2 p3 p4 p5 p6 p7 p8 p9 p10 p11,
      step_name c [] = Except.ok p1 ∧ step_brand c p1 = Except.ok p2 ∧
      step_price c p2 = Except.ok p3 ∧ step_original_price c p3 = Except.ok p4 ∧
      step_rating c p4 = Except.ok p5 ∧ step_review_count c p5 = Except.ok p6 ∧
      step_url s c p6 = Except.ok p7 ∧ step_image_url c p7 = Except.ok p8 ∧
      step_discount c p8 = Except.ok p9 ∧ step_stock_status c p9 = Except.ok p10 ∧
      step_product_id c p10 = Except.ok p11 ∧ d = p11 := by
  unfold extract_product_info at h
  cases hbody : extract_product_info_body s c with
  | error e => rw [hbody] at h; exact absurd h (by simp)
  | ok r =>
    rw [hbody] at h
    have h2 : r = some d := h
    unfold extract_product_info_body at hbody
    obtain ⟨p1, hs1, hbody⟩ := bind_eq_ok hbody
    obtain ⟨p2, hs2, hbody⟩ := bind_eq_ok hbody
    obtain ⟨p3, hs3, hbody⟩ := bind_eq_ok hbody
    obtain ⟨p4, hs4, hbody⟩ := bind_eq_ok hbody
    obtain ⟨p5, hs5, hbody⟩ := bind_eq_ok hbody
    obtain ⟨p6, hs6, hbody⟩ := bind_eq_ok hbody
    obtain ⟨p7, hs7, hbody⟩ := bind_eq_ok hbody
    obtain ⟨p8, hs8, hbody⟩ := bind_eq_ok hbody
    obtain ⟨p9, hs9, hbody⟩ := bind_eq_ok hbody
    obtain ⟨p10, hs10, hbody⟩ := bind_eq_ok hbody
    obtain ⟨p11, hs11, hbody⟩ := bind_eq_ok hbody
    rw [pure_eq_ok] at hbody
    have hr := Except.ok.inj hbody
    refine ⟨p1, p2, p3, p4, p5, p6, p7, p8, p9, p10, p11,
      hs1, hs2, hs3, hs4, hs5, hs6, hs7, hs8, hs9, hs10, hs11, ?_⟩
    by_cases hT : truthyStr (dict_get p11 "name") = true
    · rw [if_pos hT] at hr
      exact (Option.some.inj (hr.trans h2)).symm
    · rw [if_neg hT] at hr
      rw [← hr] at h2
      exact absurd h2 (by simp)

/-- C5 amended: for every fragment whose extraction returns a record, each of
brand, price, original_price, rating, review_count and discount is present
with a null value when no selector of its chain matches; stock_status is
present and defaults to Available when no stock element matches; the url key
is omitted entirely when no link selector matches; the image_url and
product_id keys are omitted when their selectors do not match, but are
present with a null value when the selector matches and the source
attributes are missing; and the extractor never sets a variants key. -/
theorem c5_unmatched_field_policy (s : Scraper) (c : Container) (d : Dict)
    (hd : extract_product_info s c = some d) :
    (c.select_one "[class*=\"brand\"]" = Except.ok none →
      dict_get d "brand" = none ∧ dict_has d "brand" = true) ∧
    (c.select_one "[class*=\"price\"]" = Except.ok none →
      c.select_one ".unit-price" = Except.ok none →
      c.select_one "[class*=\"cost\"]" = Except.ok none →
      dict_get d "price" = none ∧ dict_has d "price" = true) ∧
    (c.select_one "[class*=\"original\"]" = Except.ok none →
      c.select_one "[class*=\"regular\"]" = Except.ok none →
      c.select_one "[class*=\"before\"]" = Except.ok none →
      dict_get d "original_price" = none ∧ dict_has d "original_price" = true) ∧
    (c.select_one "[class*=\"rating\"]" = Except.ok none →
      c.select_one "[class*=\"star\"]" = Except.ok none →
      c.select_one "[class*=\"score\"]" = Except.ok none →
      dict_get d "rating" = none ∧ dict_has d "rating" = true) ∧
    (c.select_one "[class*=\"review\"]" = Except.ok none →
      dict_get d "review_count" = none ∧ dict_has d "review_count" = true) ∧
    (c.select_one "[class*=\"discount\"], [class*=\"sale\"]" = Except.ok none →
      dict_get d "discount" = none ∧ dict_has d "discount" = true) ∧
    (c.select_one "[class*=\"stock\"], [class*=\"available\"]" = Except.ok none →
      dict_get d "stock_status" = some "Available" ∧ dict_has d "stock_status" = true) ∧
    (c.select_one ".unit-thumb a" = Except.ok none →
      c.select_one ".unit-desc a" = Except.ok none →
      c.select_one "a[href*=\"product\"]" = Except.ok none →
      dict_has d "url" = false) ∧
    (c.select_one ".unit-thumb img" = Except.ok none →
      c.select_one "img" = Except.ok none →
      dict_has d "image_url" = false) ∧
    (c.select_one "input[name=\"prdtNo\"]" = Except.ok none →
      dict_has d "product_id" = false) ∧
    (∀ e : Element, c.select_one ".unit-thumb img" = Except.ok (some e) →
      e.attr "src" = none → e.attr "data-src" = none → e.attr "data-lazy-src" = none →
      dict_get d "image_url" = none ∧ dict_has d "image_url" = true) ∧
    (∀ e : Element, c.select_one "input[name=\"prdtNo\"]" = Except.ok (some e) →
      e.attr "value" = none →
      dict_get d "product_id" = none ∧ dict_has d "product_id" = true) ∧
    dict_has d "variants" = false := by
  obtain ⟨p1, p2, p3, p4, p5, p6, p7, p8, p9, p10, p11,
    hs1, hs2, hs3, hs4, hs5, hs6, hs7, hs8, hs9, hs10, hs11, rfl⟩ :=
    extract_ok_decomp s c d hd
  refine ⟨?_, ?_, ?_, ?_, ?_, ?_, ?_, ?_, ?_, ?_, ?_, ?_, ?_⟩
  · intro hA
    have hp : p2 = dict_set p1 "brand" none :=
      Except.ok.inj (hs2.symm.trans (step_brand_unmatched c p1 hA))
    have q3 := step_price_pres c p2 p3 "brand" (by decide) hs3
    have q4 := step_original_price_pres c p3 p4 "brand" (by decide) hs4
    have q5 := step_rating_pres c p4 p5 "brand" (by decide) hs5
    have q6 := step_review_count_pres c p5 p6 "brand" (by decide) hs6
    have q7 := step_url_pres s c p6 p7 "brand" (by decide) hs7
    have q8 := step_image_url_pres c p7 p8 "brand" (by decide) hs8
    have q9 := step_discount_pres c p8 p9 "brand" (by decide) hs9
    have q10 := step_stock_status_pres c p9 p10 "brand" (by decide) hs10
    have q11 := step_product_id_pres c p10 d "brand" (by decide) hs11
    constructor
    · rw [q11.1, q10.1, q9.1, q8.1, q7.1, q6.1, q5.1, q4.1, q3.1, hp, dict_get_set_self]
    · rw [q11.2, q10.2, q9.2, q8.2, q7.2, q6.2, q5.2, q4.2, q3.2, hp, dict_has_set_self]
  · intro hA hB hC
    have hp : p3 = dict_set p2 "price" none :=
      Except.ok.inj (hs3.symm.trans (step_price_unmatched c p2 hA hB hC))
    have q4 := step_original_price_pres c p3 p4 "price" (by decide) hs4
    have q5 := step_rating_pres c p4 p5 "price" (by decide) hs5
    have q6 := step_review_count_pres c p5 p6 "price" (by decide) hs6
    have q7 := step_url_pres s c p6 p7 "price" (by decide) hs7
    have q8 := step_image_url_pres c p7 p8 "price" (by decide) hs8
    have q9 := step_discount_pres c p8 p9 "price" (by decide) hs9
    have q10 := step_stock_status_pres c p9 p10 "price" (by decide) hs10
    have q11 := step_product_id_pres c p10 d "price" (by decide) hs11
    constructor
    · rw [q11.1, q10.1, q9.1, q8.1, q7.1, q6.1, q5.1, q4.1, hp, dict_get_set_self]
    · rw [q11.2, q10.2, q9.2, q8.2, q7.2, q6.2, q5.2, q4.2, hp, dict_has_set_self]
  · intro hA hB hC
    have hp : p4 = dict_set p3 "original_price" none :=
      Except.ok.inj (hs4.symm.trans (step_original_price_unmatched c p3 hA hB hC))
    have q5 := step_rating_pres c p4 p5 "original_price" (by decide) hs5
    have q6 := step_review_count_pres c p5 p6 "original_price" (by decide) hs6
    have q7 := step_url_pres s c p6 p7 "original_price" (by decide) hs7
    have q8 := step_image_url_pres c p7 p8 "original_price" (by decide) hs8
    have q9 := step_discount_pres c p8 p9 "original_price" (by decide) hs9
    have q10 := step_stock_status_pres c p9 p10 "original_price" (by decide) hs10
    have q11 := step_product_id_pres c p10 d "original_price" (by decide) hs11
    constructor
    · rw [q11.1, q10.1, q9.1, q8.1, q7.1, q6.1, q5.1, hp, dict_get_set_self]
    · rw [q11.2, q10.2, q9.2, q8.2, q7.2, q6.2, q5.2, hp, dict_has_set_self]
  · intro hA hB hC
    have hp : p5 = dict_set p4 "rating" none :=
      Except.ok.inj (hs5.symm.trans (step_rating_unmatched c p4 hA hB hC))
    have q6 := step_review_count_pres c p5 p6 "rating" (by decide) hs6
    have q7 := step_url_pres s c p6 p7 "rating" (by decide) hs7
    have q8 := step_image_url_pres c p7 p8 "rating" (by decide) hs8
    have q9 := step_discount_pres c p8 p9 "rating" (by decide) hs9
    have q10 := step_stock_status_pres c p9 p10 "rating" (by decide) hs10
    have q11 := step_product_id_pres c p10 d "rating" (by decide) hs11
    constructor
    · rw [q11.1, q10.1, q9.1, q8.1, q7.1, q6.1, hp, dict_get_set_self]
    · rw [q11.2, q10.2, q9.2, q8.2, q7.2, q6.2, hp, dict_has_set_self]
  · intro hA
    have hp : p6 = dict_set p5 "review_count" none :=
      Except.ok.inj (hs6.symm.trans (step_review_count_unmatched c p5 hA))
    have q7 := step_url_pres s c p6 p7 "review_count" (by decide) hs7
    have q8 := step_image_url_pres c p7 p8 "review_count" (by decide) hs8
    have q9 := step_discount_pres c p8 p9 "review_count" (by decide) hs9
    have q10 := step_stock_status_pres c p9 p10 "review_count" (by decide) hs10
    have q11 := step_product_id_pres c p10 d "review_count" (by decide) hs11
    constructor
    · rw [q11.1, q10.1, q9.1, q8.1, q7.1, hp, dict_get_set_self]
    · rw [q11.2, q10.2, q9.2, q8.2, q7.2, hp, dict_has_set_self]
  · intro hA
    have hp : p9 = dict_set p8 "discount" none :=
      Except.ok.inj (hs9.symm.trans (step_discount_unmatched c p8 hA))
    have q10 := step_stock_status_pres c p9 p10 "discount" (by decide) hs10
    have q11 := step_product_id_pres c p10 d "discount" (by decide) hs11
    constructor
    · rw [q11.1, q10.1, hp, dict_get_set_self]
    · rw [q11.2, q10.2, hp, dict_has_set_self]
  · intro hA
    have hp : p10 = dict_set p9 "stock_status" (some "Available") :=
      Except.ok.inj (hs10.symm.trans (step_stock_status_unmatched c p9 hA))
    have q11 := step_product_id_pres c p10 d "stock_status" (by decide) hs11
    constructor
    · rw [q11.1, hp, dict_get_set_self]
    · rw [q11.2, hp, dict_has_set_self]
  · intro hA hB hC
    have hp : p7 = p6 :=
      Except.ok.inj (hs7.symm.trans (step_url_unmatched s c p6 hA hB hC))
    have r1 := step_name_pres c [] p1 "url" (by decide) hs1
    have r2 := step_brand_pres c p1 p2 "url" (by decide) hs2
    have r3 := step_price_pres c p2 p3 "url" (by decide) hs3
    have r4 := step_original_price_pres c p3 p4 "url" (by decide) hs4
    have r5 := step_rating_pres c p4 p5 "url" (by decide) hs5
    have r6 := step_review_count_pres c p5 p6 "url" (by decide) hs6
    have q8 := step_image_url_pres c p7 p8 "url" (by decide) hs8
    have q9 := step_discount_pres c p8 p9 "url" (by decide) hs9
    have q10 := step_stock_status_pres c p9 p10 "url" (by decide) hs10
    have q11 := step_product_id_pres c p10 d "url" (by decide) hs11
    rw [q11.2, q10.2, q9.2, q8.2, hp, r6.2, r5.2, r4.2, r3.2, r2.2, r1.2]
    rfl
  · intro hA hB
    have hp : p8 = p7 :=
      Except.ok.inj (hs8.symm.trans (step_image_url_unmatched c p7 hA hB))
    have r1 := step_name_pres c [] p1 "image_url" (by decide) hs1
    have r2 := step_brand_pres c p1 p2 "image_url" (by decide) hs2
    have r3 := step_price_pres c p2 p3 "image_url" (by decide) hs3
    have r4 := step_original_price_pres c p3 p4 "image_url" (by decide) hs4
    have r5 := step_rating_pres c p4 p5 "image_url" (by decide) hs5
    have r6 := step_review_count_pres c p5 p6 "image_url" (by decide) hs6
    have r7 := step_url_pres s c p6 p7 "image_url" (by decide) hs7
    have q9 := step_discount_pres c p8 p9 "image_url" (by decide) hs9
    have q10 := step_stock_status_pres c p9 p10 "image_url" (by decide) hs10
    have q11 := step_product_id_pres c p10 d "image_url" (by decide) hs11
    rw [q11.2, q10.2, q9.2, hp, r7.2, r6.2, r5.2, r4.2, r3.2, r2.2, r1.2]
    rfl
  · intro hA
    have hp : d = p10 :=
      Except.ok.inj (hs11.symm.trans (step_product_id_unmatched c p10 hA))
    have r1 := step_name_pres c [] p1 "product_id" (by decide) hs1
    have r2 := step_brand_pres c p1 p2 "product_id" (by decide) hs2
    have r3 := step_price_pres c p2 p3 "product_id" (by decide) hs3
    have r4 := step_original_price_pres c p3 p4 "product_id" (by decide) hs4
    have r5 := step_rating_pres c p4 p5 "product_id" (by decide) hs5
    have r6 := step_review_count_pres c p5 p6 "product_id" (by decide) hs6
    have r7 := step_url_pres s c p6 p7 "product_id" (by decide) hs7
    have r8 := step_image_url_pres c p7 p8 "product_id" (by decide) hs8
    have r9 := step_discount_pres c p8 p9 "product_id" (by decide) hs9
    have r10 := step_stock_status_pres c p9 p10 "product_id" (by decide) hs10
    rw [hp, r10.2, r9.2, r8.2, r7.2, r6.2, r5.2, r4.2, r3.2, r2.2, r1.2]
    rfl
  · intro e hE h1 h2 h3
    have hset := step_image_url_matched c p7 e hE
    rw [h1, h2, h3] at hset
    have hp : p8 = dict_set p7 "image_url" none :=
      Except.ok.inj (hs8.symm.trans hset)
    have q9 := step_discount_pres c p8 p9 "image_url" (by decide) hs9
    have q10 := step_stock_status_pres c p9 p10 "image_url" (by decide) hs10
    have q11 := step_product_id_pres c p10 d "image_url" (by decide) hs11
    constructor
    · rw [q11.1, q10.1, q9.1, hp, dict_get_set_self]
    · rw [q11.2, q10.2, q9.2, hp, dict_has_set_self]
  · intro e hE hv
    have hset := step_product_id_matched c p10 e hE
    rw [hv] at hset
    have hp : d = dict_set p10 "product_id" none :=
      Except.ok.inj (hs11.symm.trans hset)
    constructor
    · rw [hp, dict_get_set_self]
    · rw [hp, dict_has_set_self]
  · have r1 := step_name_pres c [] p1 "variants" (by decide) hs1
    have r2 := step_brand_pres c p1 p2 "variants" (by decide) hs2
    have r3 := step_price_pres c p2 p3 "variants" (by decide) hs3
    have r4 := step_original_price_pres c p3 p4 "variants" (by decide) hs4
    have r5 := step_rating_pres c p4 p5 "variants" (by decide) hs5
    have r6 := step_review_count_pres c p5 p6 "variants" (by decide) hs6
    have r7 := step_url_pres s c p6 p7 "variants" (by decide) hs7
    have r8 := step_image_url_pres c p7 p8 "variants" (by decide) hs8
    have r9 := step_discount_pres c p8 p9 "variants" (by decide) hs9
    have r10 := step_stock_status_pres c p9 p10 "variants" (by decide) hs10
    have r11 := step_product_id_pres c p10 d "variants" (by decide) hs11
    rw [r11.2, r10.2, r9.2, r8.2, r7.2, r6.2, r5.2, r4.2, r3.2, r2.2, r1.2]
    rfl

/-- C5 witness: the per-field policy at two concrete fragments: one where
only the first name selector matches (brand present with null, url and
variants keys absent) and one whose img and product-id selectors match
elements with no attributes (image_url and product_id present with null). -/
theorem c5_unmatched_field_policy_witness :
    (dict_get [("name", some "X"), ("brand", none), ("price", none),
        ("original_price", none), ("rating", none), ("review_count", none),
        ("discount", none), ("stock_status", some "Available")] "brand" = none ∧
      dict_has [("name", some "X"), ("brand", none), ("price", none),
        ("original_price", none), ("rating", none), ("review_count", none),
        ("discount", none), ("stock_status", some "Available")] "brand" = true) ∧
    dict_has [("name", some "X"), ("brand", none), ("price", none),
      ("original_price", none), ("rating", none), ("review_count", none),
      ("discount", none), ("stock_status", some "Available")] "url" = false ∧
    dict_has [("name", some "X"), ("brand", none), ("price", none),
      ("original_price", none), ("rating", none), ("review_count", none),
      ("discount", none), ("stock_status", some "Available")] "variants" = false ∧
    (dict_get [("name", some "X"), ("brand", none), ("price", none),
        ("original_price", none), ("rating", none), ("review_count", none),
        ("image_url", none), ("discount", none), ("stock_status", some "Available"),
        ("product_id", none)] "image_url" = none ∧
      dict_has [("name", some "X"), ("brand", none), ("price", none),
        ("original_price", none), ("rating", none), ("review_count", none),
        ("image_url", none), ("discount", none), ("stock_status", some "Available"),
        ("product_id", none)] "image_url" = true) ∧
    (dict_get [("name", some "X"), ("brand", none), ("price", none),
        ("original_price", none), ("rating", none), ("review_count", none),
        ("image_url", none), ("discount", none), ("stock_status", some "Available"),
        ("product_id", none)] "product_id" = none ∧
      dict_has [("name", some "X"), ("brand", none), ("price", none),
        ("original_price", none), ("rating", none), ("review_count", none),
        ("image_url", none), ("discount", none), ("stock_status", some "Available"),
        ("product_id", none)] "product_id" = true) := by
  have h1 := c5_unmatched_field_policy scraper_default c_name_only
    [("name", some "X"), ("brand", none), ("price", none),
     ("original_price", none), ("rating", none), ("review_count", none),
     ("discount", none), ("stock_status", some "Available")] (by decide)
  have h2 := c5_unmatched_field_policy scraper_default c_img_noattr
    [("name", some "X"), ("brand", none), ("price", none),
     ("original_price", none), ("rating", none), ("review_count", none),
     ("image_url", none), ("discount", none), ("stock_status", some "Available"),
     ("product_id", none)] (by decide)
  obtain ⟨hb, -, -, -, -, -, -, hu, -, -, -, -, hv⟩ := h1
  obtain ⟨-, -, -, -, -, -, -, -, -, -, him, hpm, -⟩ := h2
  exact ⟨hb rfl, hu rfl rfl rfl, hv,
    him (Element.mk "" (fun _ => none)) rfl rfl rfl rfl,
    hpm (Element.mk "" (fun _ => none)) rfl rfl⟩

/-- C1: in the spec-modelled variant-invoking page loop, extract_variants is
total (never null) and returns the empty list on any failure, and every
appended record with a resolvable url carries exactly the ordered variant
list extracted from that url. -/
theorem c1_variants_attached :
    (∀ (r : DetailRenderer) (url e : String),
        r url = Except.error e → extract_variants r url = []) ∧
    (∀ (s : Scraper) (r : DetailRenderer) (pcs : List Container)
        (rec : Dict × List VariantRecord),
        rec ∈ scrape_page_with_variants s r pcs →
        ∀ u, dict_get rec.1 "url" = some u → rec.2 = extract_variants r u) := by
  constructor
  · intro r url e h
    unfold extract_variants
    rw [h]
  · intro s r pcs rec hmem u hu
    unfold scrape_page_with_variants at hmem
    rw [List.mem_filterMap] at hmem
    obtain ⟨c, -, hc⟩ := hmem
    cases hr : retained s c with
    | none => rw [hr] at hc; exact absurd hc (by simp)
    | some d =>
      rw [hr] at hc
      simp only [] at hc
      cases hg : dict_get d "url" with
      | none =>
        rw [hg] at hc
        obtain rfl : (d, ([] : List VariantRecord)) = rec := Option.some.inj hc
        rw [hg] at hu
        exact absurd hu (by simp)
      | some u0 =>
        rw [hg] at hc
        obtain rfl : (d, extract_variants r u0) = rec := Option.some.inj hc
        rw [hg] at hu
        have hu0 : u0 = u := Option.some.inj hu
        rw [hu0]

/-- C1 witness: a fragment with a name and a root-relative link yields a
record whose url resolves against the base origin and whose attached
variants are exactly those the detail renderer provides; an unreachable url
yields the empty list. -/
theorem c1_variants_attached_witness :
    extract_variants r_detail "https://x.test/missing" = [] ∧
    ([VariantRecord.mk "Rose" (some "rose.jpg")] =
      extract_variants r_detail "https://global.oliveyoung.com/p/1") :=
  ⟨c1_variants_attached.1 r_detail "https://x.test/missing" "nav" rfl,
   c1_variants_attached.2 scraper_default r_detail [c_with_link]
     ([("name", some "X"), ("brand", none), ("price", none),
       ("original_price", none), ("rating", none), ("review_count", none),
       ("url", some "https://global.oliveyoung.com/p/1"),
       ("discount", none), ("stock_status", some "Available")],
      [VariantRecord.mk "Rose" (some "rose.jpg")])
     (by decide) "https://global.oliveyoung.com/p/1" (by decide)⟩
